import Mathlib

/-
Verification of the batched matrix-multiplication shape-inference core of
onnxruntime (src/onnxruntime/core/graph/contrib_ops/contrib_defs.cc).

The C++ code manipulates `TensorShapeProto` objects whose dimensions either
carry a concrete non-negative value (`has_dim_value`) or are statically
unknown.  We embed shapes as lists of a two-constructor dimension type and
the inference functions as pure Lean functions returning `Except`:
`fail_shape_inference` becomes an `Except.error`, and the "input shape not
present, silently skip" path of the context-level functions becomes a
successful result with no output shape.
-/

/-- One symbolic dimension of a tensor shape: a known non-negative extent
(`dim_value` present in the protobuf) or statically unknown. -/
inductive SymDim where
  | known : Nat → SymDim
  | unknown : SymDim
deriving DecidableEq, Repr

/-- A symbolic tensor shape: the ordered list of its per-axis dimensions. -/
abbrev Shape := List SymDim

/-- The two fatal failure kinds of the matmul shape-inference core:
`fail_shape_inference("Input tensors of wrong rank (0).")` and
`fail_shape_inference("Incompatible dimensions for matrix multiplication")`. -/
inductive InferError where
  | invalidRank : InferError
  | incompatibleDimensions : InferError
deriving DecidableEq, Repr

deriving instance DecidableEq for Except

/-- Modelled from the spec: one aligned-pair step of the bidirectional
(numpy-style) broadcast used for the batch prefixes.  The function
`bidirectionalBroadcastShapeInference` lives in the external ONNX
shape-inference host and is not under src/; the spec prescribes: the result
is equal to either dim when both are known and equal; the known (non-1) one
when exactly one is known or one is statically 1; unknown when both are
unknown (and also when one side is statically 1 and the other unknown, per
the spec's example A=[batch?,4] x B=[4,6] -> [unknown,6]); failure with
`IncompatibleDimensions` when both are known, unequal, and neither is 1. -/
def broadcastDim : SymDim → SymDim → Except InferError SymDim
  | .known a, .known b =>
      if a = b then .ok (.known a)
      else if a = 1 then .ok (.known b)
      else if b = 1 then .ok (.known a)
      else .error .incompatibleDimensions
  | .known a, .unknown => if a = 1 then .ok .unknown else .ok (.known a)
  | .unknown, .known b => if b = 1 then .ok .unknown else .ok (.known b)
  | .unknown, .unknown => .ok .unknown

/-- Modelled from the spec: aligned per-axis broadcasting of two
already-padded dimension lists (helper for `broadcastShapes`). -/
def zipBroadcastDims : Shape → Shape → Except InferError Shape
  | [], _ => .ok []
  | _, [] => .ok []
  | a :: l, b :: r =>
      match broadcastDim a b, zipBroadcastDims l r with
      | .ok d, .ok rest => .ok (d :: rest)
      | .error e, _ => .error e
      | _, .error e => .error e

/-- Modelled from the spec: pad a dimension list on the left with size-1
axes up to length `n` (the shorter batch prefix is left-padded before the
aligned broadcast). -/
def leftPad (n : Nat) (s : Shape) : Shape :=
  List.replicate (n - s.length) (SymDim.known 1) ++ s

/-- Modelled from the spec: `bidirectionalBroadcastShapeInference` of the
external ONNX host applied to the two batch prefixes — pad the shorter
prefix on the left with size-1 axes to equal length, then broadcast each
aligned pair of dims via `broadcastDim`. -/
def broadcastShapes (l r : Shape) : Except InferError Shape :=
  zipBroadcastDims (leftPad (max l.length r.length) l) (leftPad (max l.length r.length) r)

/-- Embeds the `shape0`/`shape1` construction of `FusedMatMulShapeInference`
(contrib_defs.cc lines 310-337).  A rank-1 operand is returned untouched
(the operand's transpose flag was already forced to false, lines 302-308,
and the loop branch is skipped).  Otherwise the kept batch dims run from
`start` to `end` exclusive, with `start = transBatch ? 1 : 0` and
`end = transBatch ? rank-1 : rank-2`, followed by the row axis
`dim(trans ? rank-1 : (transBatch ? 0 : rank-2))` and the column axis
`dim(trans ? (transBatch ? 0 : rank-2) : rank-1)`. -/
def buildView (raw : Shape) (transBatch trans : Bool) : Shape :=
  let r := raw.length
  if r = 1 then raw
  else
    let start := if transBatch then 1 else 0
    let stop := if transBatch then r - 1 else r - 2
    let batchDims := (raw.drop start).take (stop - start)
    let row := raw.getD (if trans then r - 1 else (if transBatch then 0 else r - 2)) .unknown
    let col := raw.getD (if trans then (if transBatch then 0 else r - 2) else r - 1) .unknown
    batchDims ++ [row, col]

/-- Embeds the left-operand rank promotion (contrib_defs.cc lines 344-349
and 419-424): a rank-1 shape `[k]` becomes `[1, k]`. -/
def promoteL (s : Shape) : Shape :=
  if s.length = 1 then SymDim.known 1 :: s else s

/-- Embeds the right-operand rank promotion (contrib_defs.cc lines 350-355
and 425-430): a rank-1 shape `[k]` becomes `[k, 1]`. -/
def promoteR (s : Shape) : Shape :=
  if s.length = 1 then s ++ [SymDim.known 1] else s

/-- Embeds `shape.dim(shape.dim_size() - 1)`: the last dimension. -/
def lastDim (s : Shape) : SymDim := s.getD (s.length - 1) .unknown

/-- Embeds `shape.dim(shape.dim_size() - 2)`: the second-to-last dimension. -/
def sndLastDim (s : Shape) : SymDim := s.getD (s.length - 2) .unknown

/-- Embeds the contraction-compatibility test (contrib_defs.cc lines
360-365): fail exactly when both dims carry values and the values differ. -/
def dimsIncompatible : SymDim → SymDim → Bool
  | .known a, .known b => a ≠ b
  | _, _ => false

/-- Embeds the shared matmul shape steps on the already-built operand views
(contrib_defs.cc lines 339-392, repeated verbatim at 414-467): rank
promotion, the contraction-dimension check, bidirectional broadcasting of
the two batch prefixes, and reattachment of the row axis of the promoted
left view (unless the left operand view had rank 1) and the column axis of
the promoted right view (unless the right operand view had rank 1). -/
def matmulCore (shape0 shape1 : Shape) : Except InferError Shape :=
  let shapeL := promoteL shape0
  let shapeR := promoteR shape1
  if dimsIncompatible (lastDim shapeL) (sndLastDim shapeR) then
    .error .incompatibleDimensions
  else
    match broadcastShapes (shapeL.take (shapeL.length - 2)) (shapeR.take (shapeR.length - 2)) with
    | .error e => .error e
    | .ok bp =>
        .ok (bp ++ (if shape0.length = 1 then [] else [sndLastDim shapeL])
               ++ (if shape1.length = 1 then [] else [lastDim shapeR]))

/-- Embeds the shape part of `FusedMatMulShapeInference` (contrib_defs.cc
lines 295-393) on two present input shapes: rank-0 rejection, transpose /
batch-transpose view construction, then the shared matmul core. -/
def fusedMatMulShape (shapeA shapeB : Shape)
    (transA transB transBatchA transBatchB : Bool) : Except InferError Shape :=
  if shapeA.length = 0 ∨ shapeB.length = 0 then .error .invalidRank
  else matmulCore (buildView shapeA transBatchA transA) (buildView shapeB transBatchB transB)

/-- Embeds the shape part of `sparseCompatibleMatmulShapeInference`
(contrib_defs.cc lines 399-473) on two present input shapes: rank-0
rejection then the shared matmul core, with no transpose handling. -/
def sparseCompatibleMatmulShape (shapeA shapeB : Shape) : Except InferError Shape :=
  if shapeA.length = 0 ∨ shapeB.length = 0 then .error .invalidRank
  else matmulCore shapeA shapeB

/-- Modelled from the spec: the shape part of the external ONNX
`matmulShapeInference(ctx, 0, 1)` called by the `MatMulInteger16` schema
(contrib_defs.cc line 2103), which is not under src/.  Per the spec the
16-bit-integer variant uses the shape algorithm identically (it has no
transpose attributes), so the shape steps are the rank-0 rejection and the
shared matmul core. -/
def onnxMatmulShape (shapeA shapeB : Shape) : Except InferError Shape :=
  if shapeA.length = 0 ∨ shapeB.length = 0 then .error .invalidRank
  else matmulCore shapeA shapeB

/-- The statically visible per-node inputs of one shape-inference call:
the two declared input shapes (absent when not statically known), the two
input element-type identifiers (opaque), and the four boolean transpose
attributes (`transA`, `transB`, `transBatchA`, `transBatchB`, default
false when the attribute is absent). -/
structure InferenceContext where
  shapeA : Option Shape
  shapeB : Option Shape
  typeA : Nat
  typeB : Nat
  transA : Bool
  transB : Bool
  transBatchA : Bool
  transBatchB : Bool
deriving DecidableEq, Repr

/-- The observable output of one successful shape-inference call: the
output element type, when one was assigned, and the output shape, when one
was produced (`none` models the silent-skip path that leaves the output
shape unset). -/
structure InferenceOutput where
  elemType : Option Nat
  shape : Option Shape
deriving DecidableEq, Repr

/-- Embeds `FusedMatMulShapeInference` (contrib_defs.cc lines 279-394) at
the context level: the output element type is propagated from input 0
first (line 280); if either input shape is not present the call returns
with no output shape (lines 291-293); otherwise the shape algorithm runs
and its failures abort the call. -/
def fusedMatMulShapeInference (ctx : InferenceContext) : Except InferError InferenceOutput :=
  match ctx.shapeA, ctx.shapeB with
  | some a, some b =>
      match fusedMatMulShape a b ctx.transA ctx.transB ctx.transBatchA ctx.transBatchB with
      | .error e => .error e
      | .ok s => .ok ⟨some ctx.typeA, some s⟩
  | _, _ => .ok ⟨some ctx.typeA, none⟩

/-- Embeds the `SparseToDenseMatMul` inference function (contrib_defs.cc
lines 2200-2205): the output element type is propagated from the dense
input 1 (line 2202), then `sparseCompatibleMatmulShapeInference(ctx, 0, 1)`
runs (skipping silently when either input shape is absent, lines 403-405). -/
def sparseToDenseMatMulInference (ctx : InferenceContext) : Except InferError InferenceOutput :=
  match ctx.shapeA, ctx.shapeB with
  | some a, some b =>
      match sparseCompatibleMatmulShape a b with
      | .error e => .error e
      | .ok s => .ok ⟨some ctx.typeB, some s⟩
  | _, _ => .ok ⟨some ctx.typeB, none⟩

/-- The ONNX `TensorProto::INT32` element-type identifier forced onto the
output of `MatMulInteger16` (contrib_defs.cc line 2101). -/
def INT32 : Nat := 6

/-- Embeds the `MatMulInteger16` inference function (contrib_defs.cc lines
2089-2104) on tensor-typed inputs: the output element type is forced to
`INT32` (line 2101), then the external `matmulShapeInference(ctx, 0, 1)`
runs (modelled by `onnxMatmulShape`, skipping silently when either input
shape is absent). -/
def matMulInteger16Inference (ctx : InferenceContext) : Except InferError InferenceOutput :=
  match ctx.shapeA, ctx.shapeB with
  | some a, some b =>
      match onnxMatmulShape a b with
      | .error e => .error e
      | .ok s => .ok ⟨some INT32, some s⟩
  | _, _ => .ok ⟨some INT32, none⟩

lemma length_app2 (l : Shape) (d1 d2 : SymDim) : (l ++ [d1, d2]).length = l.length + 2 := by
  simp

lemma lastDim_app2 (l : Shape) (d1 d2 : SymDim) : lastDim (l ++ [d1, d2]) = d2 := by
  have h : (l ++ [d1, d2]).length - 1 = l.length + 1 := by simp
  unfold lastDim
  rw [h, List.getD_append_right l _ _ _ (by omega)]
  simp

lemma sndLastDim_app2 (l : Shape) (d1 d2 : SymDim) : sndLastDim (l ++ [d1, d2]) = d1 := by
  have h : (l ++ [d1, d2]).length - 2 = l.length := by simp
  unfold sndLastDim
  rw [h, List.getD_append_right l _ _ _ (by omega)]
  simp

lemma take_app2 (l : Shape) (d1 d2 : SymDim) :
    (l ++ [d1, d2]).take ((l ++ [d1, d2]).length - 2) = l := by
  have h : (l ++ [d1, d2]).length - 2 = l.length := by simp
  rw [h]
  exact List.take_left l [d1, d2]

lemma buildView_app2 (l : Shape) (d1 d2 : SymDim) :
    buildView (l ++ [d1, d2]) false false = l ++ [d1, d2] := by
  have hlen : (l ++ [d1, d2]).length = l.length + 2 := by simp
  simp only [buildView, hlen]
  rw [if_neg (by omega)]
  simp only [Bool.false_eq_true, if_false, List.drop_zero, Nat.sub_zero]
  have h2 : l.length + 2 - 2 = l.length := by omega
  have h1 : l.length + 2 - 1 = l.length + 1 := by omega
  rw [h2, h1, List.take_left l [d1, d2],
    List.getD_append_right l _ _ _ (by omega),
    List.getD_append_right l _ _ _ (by omega)]
  simp

lemma promoteL_app2 (l : Shape) (d1 d2 : SymDim) :
    promoteL (l ++ [d1, d2]) = l ++ [d1, d2] := by
  unfold promoteL
  rw [if_neg (by simp)]

lemma promoteR_app2 (l : Shape) (d1 d2 : SymDim) :
    promoteR (l ++ [d1, d2]) = l ++ [d1, d2] := by
  unfold promoteR
  rw [if_neg (by simp)]

lemma dimsIncompatible_self (d : SymDim) : dimsIncompatible d d = false := by
  cases d with
  | known a => simp [dimsIncompatible]
  | unknown => rfl

lemma fusedMatMulShape_app2 (pa pb : Shape) (m k k' n : SymDim)
    (hk : dimsIncompatible k k' = false) :
    fusedMatMulShape (pa ++ [m, k]) (pb ++ [k', n]) false false false false =
      match broadcastShapes pa pb with
      | .error e => .error e
      | .ok bp => .ok (bp ++ [m, n]) := by
  unfold fusedMatMulShape
  rw [if_neg (by simp)]
  rw [buildView_app2 pa m k, buildView_app2 pb k' n]
  unfold matmulCore
  simp only [promoteL_app2, promoteR_app2, lastDim_app2, sndLastDim_app2, take_app2, hk,
    Bool.false_eq_true, if_false]
  rw [if_neg (by simp), if_neg (by simp)]
  cases broadcastShapes pa pb with
  | error e => rfl
  | ok bp => simp

/-- C1: for every pair of present input shapes `A = batchA ++ [m, k]` and
`B = batchB ++ [k, n]` of rank at least 2 with all four transpose flags
false, when the batch prefixes broadcast (per the spec-modelled
`broadcastShapes`, whose per-pair rule is exactly the claim's: common value
when both known and equal, the known or non-1 value when exactly one is
known or one is statically 1, unknown when both unknown, and
`IncompatibleDimensions` when both known, unequal and neither is 1) the
inference succeeds with shape `broadcast ++ [m, n]`, and when the prefixes
fail to broadcast the call fails with `IncompatibleDimensions`. -/
theorem c1_batch_broadcast_matmul (pa pb : Shape) (m k n : SymDim) :
    (∀ bp, broadcastShapes pa pb = .ok bp →
      fusedMatMulShape (pa ++ [m, k]) (pb ++ [k, n]) false false false false
        = .ok (bp ++ [m, n])) ∧
    (broadcastShapes pa pb = .error .incompatibleDimensions →
      fusedMatMulShape (pa ++ [m, k]) (pb ++ [k, n]) false false false false
        = .error .incompatibleDimensions) := by
  have hflat := fusedMatMulShape_app2 pa pb m k k n (dimsIncompatible_self k)
  constructor
  · intro bp hbc
    rw [hflat, hbc]
  · intro hbc
    rw [hflat, hbc]

/-- C1 witness: the claim's concrete instance `A=[8,1,3,4]`, `B=[1,5,4,6]`
yields output `[8,5,3,6]`, obtained from `c1_batch_broadcast_matmul` with
both hypotheses discharged by evaluation. -/
theorem c1_batch_broadcast_matmul_witness :
    broadcastShapes [SymDim.known 8, SymDim.known 1] [SymDim.known 1, SymDim.known 5]
      = .ok [SymDim.known 8, SymDim.known 5] ∧
    fusedMatMulShape [SymDim.known 8, SymDim.known 1, SymDim.known 3, SymDim.known 4]
      [SymDim.known 1, SymDim.known 5, SymDim.known 4, SymDim.known 6] false false false false
      = .ok [SymDim.known 8, SymDim.known 5, SymDim.known 3, SymDim.known 6] :=
  ⟨by decide,
    (c1_batch_broadcast_matmul [SymDim.known 8, SymDim.known 1]
      [SymDim.known 1, SymDim.known 5] (SymDim.known 3) (SymDim.known 4) (SymDim.known 6)).1
      [SymDim.known 8, SymDim.known 5] (by decide)⟩

/-- Follows the words of claim C2, not the source (refinement comparison):
with the batch-transpose flag set the claim relocates axis 0 to just
before the last two matrix axes, so the view is
`[d1, ..., d(r-3), d0, d(r-2), d(r-1)]` (for rank 3 this relocation is
trivial and the view is unchanged); the ordinary transpose flag then swaps
the last two axes of the view. -/
def claimBuildView (raw : Shape) (transBatch trans : Bool) : Shape :=
  let r := raw.length
  if r ≤ 1 then raw
  else
    let moved :=
      if transBatch then
        ((raw.drop 1).take (r - 3)) ++ [raw.getD 0 .unknown] ++ raw.drop (r - 2)
      else raw
    if trans then
      moved.take (moved.length - 2) ++ [lastDim moved, sndLastDim moved]
    else moved

/-- Follows the words of claim C2, not the source: the fused-matmul shape
inference with the operand views built per `claimBuildView`. -/
def claimFusedMatMulShape (shapeA shapeB : Shape)
    (transA transB transBatchA transBatchB : Bool) : Except InferError Shape :=
  if shapeA.length = 0 ∨ shapeB.length = 0 then .error .invalidRank
  else matmulCore (claimBuildView shapeA transBatchA transA) (claimBuildView shapeB transBatchB transB)

/-- C2 counterexample: on `A=[3,4,5]` with `transBatchA=true` and all other
flags false, against `B=[5,6]`, the code's inference yields `[4,3,6]`
(axis 0 of A becomes the matrix row axis and axis 1 joins the batch
prefix), while the claim's reading — axis 0 relocated to just before the
last two matrix axes, trivial at rank 3 — would yield `[3,4,6]`; the two
disagree. -/
theorem c2_transbatch_counterexample :
    fusedMatMulShape [SymDim.known 3, SymDim.known 4, SymDim.known 5]
      [SymDim.known 5, SymDim.known 6] false false true false
      = .ok [SymDim.known 4, SymDim.known 3, SymDim.known 6] ∧
    claimFusedMatMulShape [SymDim.known 3, SymDim.known 4, SymDim.known 5]
      [SymDim.known 5, SymDim.known 6] false false true false
      = .ok [SymDim.known 3, SymDim.known 4, SymDim.known 6] ∧
    fusedMatMulShape [SymDim.known 3, SymDim.known 4, SymDim.known 5]
      [SymDim.known 5, SymDim.known 6] false false true false
      ≠ claimFusedMatMulShape [SymDim.known 3, SymDim.known 4, SymDim.known 5]
        [SymDim.known 5, SymDim.known 6] false false true false := by
  refine ⟨by decide, by decide, by decide⟩

/-- C2 amended: for an operand of rank at least 2 with its batch-transpose
flag set, the view relocates axis 0 to just before the LAST axis, so axis 0
becomes the matrix row source, the former second-to-last axis joins the
batch prefix, and the last axis stays the column source; the operand's
ordinary transpose flag then swaps the resulting last two view axes (so at
`A=[3,4,5]` the row/col sources with the transpose flag set differ from
those with it unset exactly by this swap; for rank 2 nothing moves). -/
theorem c2_transbatch_view (d0 dl : SymDim) (ds : Shape) (t : Bool) :
    buildView (d0 :: (ds ++ [dl])) true t = ds ++ (if t then [dl, d0] else [d0, dl]) := by
  have hlen : (d0 :: (ds ++ [dl])).length = ds.length + 2 := by simp
  have h1 : ds.length + 2 - 1 = ds.length + 1 := by omega
  have h3 : ds.length + 1 - 1 = ds.length := by omega
  have hlast : (d0 :: (ds ++ [dl])).getD (ds.length + 1) SymDim.unknown = dl := by
    have hcons : (d0 :: (ds ++ [dl])) = (d0 :: ds) ++ [dl] := by simp
    rw [hcons, List.getD_append_right (d0 :: ds) _ _ _ (by simp)]
    simp
  have htake : ((ds ++ [dl]).take ds.length) = ds := List.take_left ds [dl]
  cases t with
  | false =>
      simp only [buildView, hlen]
      rw [if_neg (by omega)]
      simp [h1, h3, hlast, htake]
  | true =>
      simp only [buildView, hlen]
      rw [if_neg (by omega)]
      simp [h1, h3, hlast, htake]

/-- C3 counterexample: with `A=[2,3,4]` and `B=[3,4,5]` and all flags
false, the promoted contraction dimensions are both the known value 4 —
equal — yet the call still fails with `IncompatibleDimensions`, because the
batch prefixes `[2]` and `[3]` do not broadcast; so `infer` can fail with
`IncompatibleDimensions` without the contraction dims being known and
unequal, refuting the claim's "if and only if". -/
theorem c3_contraction_counterexample :
    lastDim (promoteL (buildView [SymDim.known 2, SymDim.known 3, SymDim.known 4] false false))
      = SymDim.known 4 ∧
    sndLastDim (promoteR (buildView [SymDim.known 3, SymDim.known 4, SymDim.known 5] false false))
      = SymDim.known 4 ∧
    fusedMatMulShape [SymDim.known 2, SymDim.known 3, SymDim.known 4]
      [SymDim.known 3, SymDim.known 4, SymDim.known 5] false false false false
      = .error .incompatibleDimensions :=
  ⟨by decide, by decide, by decide⟩

/-- C3 amended: after rank promotion the contraction check fails with
`IncompatibleDimensions` exactly when the last axis of the promoted A view
and the second-to-last axis of the promoted B view are both known and
unequal; provided the batch prefixes broadcast successfully (so the only
other `IncompatibleDimensions` source is absent), the whole call fails
with `IncompatibleDimensions` if and only if that condition holds, and
whenever either contraction dim is unknown the call does not fail on the
contraction check.  `A=[3,4]` times `B=[5,6]` fails. -/
theorem c3_contraction_check (a b : Shape) (ta tb tba tbb : Bool) (bp : Shape)
    (ha : a ≠ []) (hb : b ≠ [])
    (hbc : broadcastShapes
        ((promoteL (buildView a tba ta)).take ((promoteL (buildView a tba ta)).length - 2))
        ((promoteR (buildView b tbb tb)).take ((promoteR (buildView b tbb tb)).length - 2))
        = .ok bp) :
    fusedMatMulShape a b ta tb tba tbb = .error .incompatibleDimensions ↔
      dimsIncompatible (lastDim (promoteL (buildView a tba ta)))
        (sndLastDim (promoteR (buildView b tbb tb))) = true := by
  unfold fusedMatMulShape
  rw [if_neg (by simp [List.length_eq_zero, ha, hb])]
  unfold matmulCore
  by_cases hd : dimsIncompatible (lastDim (promoteL (buildView a tba ta)))
      (sndLastDim (promoteR (buildView b tbb tb))) = true
  · rw [if_pos hd]
    simp [hd]
  · rw [if_neg hd]
    rw [hbc]
    simp [hd]

/-- C3 witness: the amended theorem applied at the claim's example
`A=[3,4]`, `B=[5,6]` with all flags false and empty broadcast prefixes,
all hypotheses discharged by evaluation: the call fails with
`IncompatibleDimensions` because 4 and 5 are both known and unequal. -/
theorem c3_contraction_check_witness :
    fusedMatMulShape [SymDim.known 3, SymDim.known 4] [SymDim.known 5, SymDim.known 6]
      false false false false = .error .incompatibleDimensions :=
  (c3_contraction_check [SymDim.known 3, SymDim.known 4] [SymDim.known 5, SymDim.known 6]
      false false false false [] (by decide) (by decide) (by decide)).mpr (by decide)

/-- C4: rank-1 operands are promoted only for contraction and broadcasting
and the synthetic axis is dropped from the output: for every `m`, `k`, `n`
(known or unknown), `[k] x [k,n]` yields `[n]`, `[m,k] x [k]` yields `[m]`,
and `[k] x [k]` (matching length) yields the rank-0 empty shape. -/
theorem c4_rank1_promotion (m k n : SymDim) :
    fusedMatMulShape [k] [k, n] false false false false = .ok [n] ∧
    fusedMatMulShape [m, k] [k] false false false false = .ok [m] ∧
    fusedMatMulShape [k] [k] false false false false = .ok [] := by
  refine ⟨?_, ?_, ?_⟩
  · simp only [fusedMatMulShape]
    rw [if_neg (by simp)]
    simp only [matmulCore]
    rw [if_neg (by
      rw [show lastDim (promoteL (buildView [k] false false)) = k from rfl,
        show sndLastDim (promoteR (buildView [k, n] false false)) = k from rfl,
        dimsIncompatible_self]
      simp)]
    rfl
  · simp only [fusedMatMulShape]
    rw [if_neg (by simp)]
    simp only [matmulCore]
    rw [if_neg (by
      rw [show lastDim (promoteL (buildView [m, k] false false)) = k from rfl,
        show sndLastDim (promoteR (buildView [k] false false)) = k from rfl,
        dimsIncompatible_self]
      simp)]
    rfl
  · simp only [fusedMatMulShape]
    rw [if_neg (by simp)]
    simp only [matmulCore]
    rw [if_neg (by
      rw [show lastDim (promoteL (buildView [k] false false)) = k from rfl,
        show sndLastDim (promoteR (buildView [k] false false)) = k from rfl,
        dimsIncompatible_self]
      simp)]
    rfl

/-- C5: a rank-0 (empty-shape) operand on either side makes the call fail
with the `InvalidRank` error, for every shape of the other operand and
every flag setting, in both the fused-matmul and the sparse-times-dense
inference paths. -/
theorem c5_rank0_invalid (s : Shape) (t1 t2 : Nat) (ta tb tba tbb : Bool) :
    fusedMatMulShapeInference ⟨some [], some s, t1, t2, ta, tb, tba, tbb⟩ = .error .invalidRank ∧
    fusedMatMulShapeInference ⟨some s, some [], t1, t2, ta, tb, tba, tbb⟩ = .error .invalidRank ∧
    sparseToDenseMatMulInference ⟨some [], some s, t1, t2, ta, tb, tba, tbb⟩ = .error .invalidRank ∧
    sparseToDenseMatMulInference ⟨some s, some [], t1, t2, ta, tb, tba, tbb⟩ = .error .invalidRank := by
  have hf : fusedMatMulShape s [] ta tb tba tbb = .error .invalidRank := by
    simp [fusedMatMulShape]
  have hs : sparseCompatibleMatmulShape s [] = .error .invalidRank := by
    simp [sparseCompatibleMatmulShape]
  refine ⟨rfl, ?_, rfl, ?_⟩
  · simp [fusedMatMulShapeInference, hf]
  · simp [sparseToDenseMatMulInference, hs]

/-- C6: when either input shape is statically absent the call silently
skips — it succeeds (raising neither `InvalidRank` nor
`IncompatibleDimensions`) and produces no output shape, in both the
fused-matmul and the sparse-times-dense paths (the element type having
been propagated beforehand). -/
theorem c6_unknown_shape_skips (sA sB : Option Shape) (t1 t2 : Nat) (ta tb tba tbb : Bool) :
    fusedMatMulShapeInference ⟨none, sB, t1, t2, ta, tb, tba, tbb⟩ = .ok ⟨some t1, none⟩ ∧
    fusedMatMulShapeInference ⟨sA, none, t1, t2, ta, tb, tba, tbb⟩ = .ok ⟨some t1, none⟩ ∧
    sparseToDenseMatMulInference ⟨none, sB, t1, t2, ta, tb, tba, tbb⟩ = .ok ⟨some t2, none⟩ ∧
    sparseToDenseMatMulInference ⟨sA, none, t1, t2, ta, tb, tba, tbb⟩ = .ok ⟨some t2, none⟩ := by
  refine ⟨rfl, ?_, rfl, ?_⟩ <;> cases sA <;> rfl

/-- C7: a rank-1 operand's own transpose flag is ignored: setting it gives
the same result as leaving it unset, for every shape of the other operand
and every setting of the remaining flags, on both the A side and the B
side. -/
theorem c7_rank1_transpose_ignored (k : SymDim) (other : Option Shape) (t1 t2 : Nat)
    (x tba tbb : Bool) :
    fusedMatMulShapeInference ⟨some [k], other, t1, t2, true, x, tba, tbb⟩
      = fusedMatMulShapeInference ⟨some [k], other, t1, t2, false, x, tba, tbb⟩ ∧
    fusedMatMulShapeInference ⟨other, some [k], t1, t2, x, true, tba, tbb⟩
      = fusedMatMulShapeInference ⟨other, some [k], t1, t2, x, false, tba, tbb⟩ := by
  refine ⟨?_, ?_⟩ <;> cases other <;> rfl

lemma exists_last_two : ∀ (s : Shape), 2 ≤ s.length → ∃ l d1 d2, s = l ++ [d1, d2]
  | [], h => absurd h (by decide)
  | [_], h => absurd h (by simp)
  | [d1, d2], _ => ⟨[], d1, d2, rfl⟩
  | a :: b :: c :: t, _ => by
      obtain ⟨l, d1, d2, h⟩ := exists_last_two (b :: c :: t) (by simp)
      exact ⟨a :: l, d1, d2, by rw [h]; rfl⟩

lemma buildView_false_false (s : Shape) (hs : s ≠ []) : buildView s false false = s := by
  rcases s with _ | ⟨d, tail⟩
  · exact absurd rfl hs
  · rcases tail with _ | ⟨e, rest⟩
    · rfl
    · obtain ⟨l, d1, d2, hdec⟩ := exists_last_two (d :: e :: rest) (by simp)
      rw [hdec]
      exact buildView_app2 l d1 d2

lemma flagless_eq (a b : Shape) :
    fusedMatMulShape a b false false false false = sparseCompatibleMatmulShape a b := by
  unfold fusedMatMulShape sparseCompatibleMatmulShape
  by_cases h : a.length = 0 ∨ b.length = 0
  · rw [if_pos h, if_pos h]
  · rw [if_neg h, if_neg h]
    push_neg at h
    rw [buildView_false_false a (by simpa [List.length_eq_zero] using h.1),
      buildView_false_false b (by simpa [List.length_eq_zero] using h.2)]

/-- C8: the output element type is propagated verbatim and the three
operator variants differ only in type handling: on identical inputs (flags
all false, which is the only mode of the flagless variants) the plain
fused-matmul variant assigns element type from input 0, the
16-bit-integer variant forces the fixed 32-bit integer type `INT32`, the
sparse-times-dense variant assigns element type from the dense input 1,
and all three produce the same output shape (including failing alike). -/
theorem c8_variant_types (sA sB : Option Shape) (t1 t2 : Nat) :
    (fusedMatMulShapeInference ⟨sA, sB, t1, t2, false, false, false, false⟩).map
        InferenceOutput.elemType
      = (fusedMatMulShapeInference ⟨sA, sB, t1, t2, false, false, false, false⟩).map
          (fun _ => some t1) ∧
    (matMulInteger16Inference ⟨sA, sB, t1, t2, false, false, false, false⟩).map
        InferenceOutput.elemType
      = (matMulInteger16Inference ⟨sA, sB, t1, t2, false, false, false, false⟩).map
          (fun _ => some INT32) ∧
    (sparseToDenseMatMulInference ⟨sA, sB, t1, t2, false, false, false, false⟩).map
        InferenceOutput.elemType
      = (sparseToDenseMatMulInference ⟨sA, sB, t1, t2, false, false, false, false⟩).map
          (fun _ => some t2) ∧
    (fusedMatMulShapeInference ⟨sA, sB, t1, t2, false, false, false, false⟩).map
        InferenceOutput.shape
      = (sparseToDenseMatMulInference ⟨sA, sB, t1, t2, false, false, false, false⟩).map
          InferenceOutput.shape ∧
    (matMulInteger16Inference ⟨sA, sB, t1, t2, false, false, false, false⟩).map
        InferenceOutput.shape
      = (sparseToDenseMatMulInference ⟨sA, sB, t1, t2, false, false, false, false⟩).map
          InferenceOutput.shape := by
  have hos : ∀ x y : Shape, onnxMatmulShape x y = sparseCompatibleMatmulShape x y :=
    fun _ _ => rfl
  cases sA with
  | none => exact ⟨rfl, rfl, rfl, rfl, rfl⟩
  | some a =>
      cases sB with
      | none => exact ⟨rfl, rfl, rfl, rfl, rfl⟩
      | some b =>
          simp only [fusedMatMulShapeInference, sparseToDenseMatMulInference,
            matMulInteger16Inference, flagless_eq, hos]
          cases hr : sparseCompatibleMatmulShape a b with
          | error e => simp [Except.map]
          | ok s => simp [Except.map]

/-- C9: even on the silent-skip path (either input shape statically
absent) the fused-matmul inference has already assigned the output element
type, propagated from input 0, so the skip leaves the type set and only
the shape unset. -/
theorem c9_skip_sets_type (sA sB : Option Shape) (t1 t2 : Nat) (ta tb tba tbb : Bool) :
    (fusedMatMulShapeInference ⟨none, sB, t1, t2, ta, tb, tba, tbb⟩).map
        InferenceOutput.elemType = .ok (some t1) ∧
    (fusedMatMulShapeInference ⟨sA, none, t1, t2, ta, tb, tba, tbb⟩).map
        InferenceOutput.elemType = .ok (some t1) ∧
    (fusedMatMulShapeInference ⟨none, sB, t1, t2, ta, tb, tba, tbb⟩).map
        InferenceOutput.shape = .ok none ∧
    (fusedMatMulShapeInference ⟨sA, none, t1, t2, ta, tb, tba, tbb⟩).map
        InferenceOutput.shape = .ok none := by
  refine ⟨rfl, ?_, rfl, ?_⟩ <;> cases sA <;> rfl

/-- C10: on a rank-2 operand the batch-transpose flag alone changes
nothing — the batch prefix is empty either way and the two matrix axes are
taken from the same dims — so the inference result with the flag set
equals the result with it unset, on both the A side and the B side, for
every shape of the other operand and every setting of the ordinary
transpose flags. -/
theorem c10_rank2_transbatch_noop (a b : SymDim) (other : Option Shape) (t1 t2 : Nat)
    (ta tb tbo : Bool) :
    fusedMatMulShapeInference ⟨some [a, b], other, t1, t2, ta, tb, true, tbo⟩
      = fusedMatMulShapeInference ⟨some [a, b], other, t1, t2, ta, tb, false, tbo⟩ ∧
    fusedMatMulShapeInference ⟨other, some [a, b], t1, t2, ta, tb, tbo, true⟩
      = fusedMatMulShapeInference ⟨other, some [a, b], t1, t2, ta, tb, tbo, false⟩ := by
  have hv : ∀ t : Bool, buildView [a, b] true t = buildView [a, b] false t := by
    intro t
    cases t <;> rfl
  constructor
  · cases other with
    | none => rfl
    | some s => simp only [fusedMatMulShapeInference, fusedMatMulShape, hv]
  · cases other with
    | none => rfl
    | some s => simp only [fusedMatMulShapeInference, fusedMatMulShape, hv]

example : fusedMatMulShape [.known 3, .known 4] [.known 5, .known 6]
    false false false false = .error .incompatibleDimensions := by decide

example : fusedMatMulShape [.known 3, .known 4, .known 5] [.known 5, .known 6]
    false false true false = .ok [.known 4, .known 3, .known 6] := by decide

example : fusedMatMulShape [.unknown, .known 4] [.known 4, .known 6]
    false false false false = .ok [.unknown, .known 6] := by decide
